import Mathlib

/-!
Shallow embedding of the krystal/go-runner package: the `Runner` interface
and its wrapping strategies `Sudo`, `SSHCLI` and `Testing`, together with the
`Local` executor's environment store.

Wrappers never execute processes themselves: each one computes a transformed
program name and argument vector and delegates to an inner `Runner`.  We model
the inner runner as an oracle giving the result of each delegated call, and
every wrapper operation additionally returns the list of calls it made on the
inner runner, so that "the inner runner was never called" and "the inner
runner received exactly these arguments" are directly statable.

Go panics (method calls on a nil interface value) are modelled by `Option`:
`none` is a panic, `some` a normal return.
-/

namespace GoRunner

/-- Opaque model of a `context.Context` value: wrappers pass it through
without inspecting it. -/
abbrev Ctx := Nat

/-- The stdin/stdout/stderr triple handed to `Run`/`RunContext`.  Wrappers
pass the streams through unchanged and never inspect them, so an opaque
handle per stream suffices (`none` models a nil reader/writer). -/
structure Streams where
  stdin : Option String
  stdout : Option String
  stderr : Option String
deriving DecidableEq, Repr

/-- Model of Go error values as built by this package: a base sentinel error
and `fmt.Errorf("%w<suffix>", e)` wrapping, whose message is the wrapped
error's message followed by the suffix. -/
inductive GoErr where
  | base
  | wrapf (e : GoErr) (suffix : String)
  | other (msg : String)
deriving DecidableEq, Repr

/-- The `Error()` message of a modelled error.  `baseMsg` is the message of
the base sentinel (see `Err`). -/
def GoErr.errorMsg (baseMsg : String) : GoErr → String
  | .base => baseMsg
  | .wrapf e s => e.errorMsg baseMsg ++ s
  | .other m => m

/-- Modelled from the spec: the package-level base sentinel error `Err`
(the spec's `<baseError>`) is referenced by the sources in
`ErrSSHCLI = fmt.Errorf("%w: sshcli: ", Err)` but its own declaration is not
among the provided source files; we model it as an abstract sentinel whose
message is supplied as the `baseMsg` parameter of `GoErr.errorMsg`. -/
def Err : GoErr := .base

/-- `ErrSSHCLI = fmt.Errorf("%w: sshcli: ", Err)`. -/
def ErrSSHCLI : GoErr := .wrapf Err ": sshcli: "

/-- `ErrSSHCLINoDestination = fmt.Errorf("%w: destination must be set", ErrSSHCLI)`. -/
def ErrSSHCLINoDestination : GoErr := .wrapf ErrSSHCLI ": destination must be set"

/-- A call observed on the inner (wrapped) `Runner`. -/
inductive InnerCall where
  | run (s : Streams) (command : String) (args : List String)
  | runCtx (ctx : Ctx) (s : Streams) (command : String) (args : List String)
  | env (vars : List String)
deriving DecidableEq, Repr

/-- Oracle for the inner runner's results: what `inner.Run` /
`inner.RunContext` return for given arguments. -/
structure InnerRunner where
  run : Streams → String → List String → Except GoErr Unit
  runCtx : Ctx → Streams → String → List String → Except GoErr Unit

/-- An inner runner whose calls all succeed; used to instantiate theorems on
concrete inputs. -/
def okRunner : InnerRunner where
  run := fun _ _ _ => .ok ()
  runCtx := fun _ _ _ _ => .ok ()

/-- A concrete stream set with all three streams nil. -/
def st0 : Streams := ⟨none, none, none⟩

/-! ### Local -/

/-- `Local` executor state: only its environment store matters to the claims
(the actual process spawn is the OS primitive, out of scope). -/
structure Local where
  env : List String
deriving DecidableEq, Repr

/-- `func (r *Local) Env(env ...string) { r.env = env }` -/
def Local.Env (r : Local) (env : List String) : Local :=
  { r with env := env }

/-! ### Sudo -/

/-- `Sudo` wrapper configuration (the `Runner` field is the inner runner,
passed separately as the oracle). -/
structure Sudo where
  User : String
  Args : List String
deriving DecidableEq, Repr

/-- `func (r *Sudo) args(command string, args []string) []string` -/
def Sudo.args (r : Sudo) (command : String) (args : List String) : List String :=
  let sudoArgs := ["-n"]
  let sudoArgs := if r.User ≠ "" then sudoArgs ++ ["-u", r.User] else sudoArgs
  let sudoArgs := sudoArgs ++ r.Args
  let sudoArgs := sudoArgs ++ ["--", command]
  sudoArgs ++ args

/-- `func (r *Sudo) Run(...)`: delegates to the inner runner's `Run` with
program `"sudo"` and the constructed argument vector. -/
def Sudo.Run (r : Sudo) (inner : InnerRunner) (s : Streams)
    (command : String) (args : List String) :
    Except GoErr Unit × List InnerCall :=
  let sudoArgs := r.args command args
  (inner.run s "sudo" sudoArgs, [.run s "sudo" sudoArgs])

/-- `func (r *Sudo) RunContext(...)`: delegates to the inner runner's
`RunContext` with program `"sudo"` and the constructed argument vector. -/
def Sudo.RunContext (r : Sudo) (inner : InnerRunner) (ctx : Ctx) (s : Streams)
    (command : String) (args : List String) :
    Except GoErr Unit × List InnerCall :=
  let sudoArgs := r.args command args
  (inner.runCtx ctx s "sudo" sudoArgs, [.runCtx ctx s "sudo" sudoArgs])

/-- `func (r *Sudo) Env(vars ...string) { r.Runner.Env(vars...) }`:
no local state is touched; the call is forwarded to the inner runner. -/
def Sudo.Env (r : Sudo) (vars : List String) : Sudo × List InnerCall :=
  (r, [.env vars])

/-! ### SSHCLI -/

/-- `SSHCLI` wrapper configuration and its private `env` store. -/
structure SSHCLI where
  Destination : String
  Port : Int
  IdentityFile : String
  Login : String
  Args : List String
  env : List String
deriving DecidableEq, Repr

/-- `func (rsc *SSHCLI) args(command string, args []string) ([]string, error)` -/
def SSHCLI.args (rsc : SSHCLI) (command : String) (args : List String) :
    Except GoErr (List String) :=
  if rsc.Destination = "" then
    .error ErrSSHCLINoDestination
  else
    let sshArgs : List String := []
    let sshArgs := if rsc.Port ≠ 0 then sshArgs ++ ["-p", toString rsc.Port] else sshArgs
    let sshArgs := if rsc.IdentityFile ≠ "" then sshArgs ++ ["-i", rsc.IdentityFile] else sshArgs
    let sshArgs := if rsc.Login ≠ "" then sshArgs ++ ["-l", rsc.Login] else sshArgs
    let sshArgs := if rsc.Args.length > 0 then sshArgs ++ rsc.Args else sshArgs
    let sshArgs := sshArgs ++ [rsc.Destination, "--"]
    let sshArgs := if rsc.env.length > 0 then sshArgs ++ ["env"] ++ rsc.env else sshArgs
    .ok (sshArgs ++ [command] ++ args)

/-- `func (rsc *SSHCLI) Run(...)`: on an argument-construction error the
error is returned without calling the inner runner; otherwise delegates to
the inner runner's `Run` with program `"ssh"`. -/
def SSHCLI.Run (rsc : SSHCLI) (inner : InnerRunner) (s : Streams)
    (command : String) (args : List String) :
    Except GoErr Unit × List InnerCall :=
  match rsc.args command args with
  | .error e => (.error e, [])
  | .ok sshArgs => (inner.run s "ssh" sshArgs, [.run s "ssh" sshArgs])

/-- `func (rsc *SSHCLI) RunContext(...)`: as `Run`, via the inner runner's
`RunContext`. -/
def SSHCLI.RunContext (rsc : SSHCLI) (inner : InnerRunner) (ctx : Ctx) (s : Streams)
    (command : String) (args : List String) :
    Except GoErr Unit × List InnerCall :=
  match rsc.args command args with
  | .error e => (.error e, [])
  | .ok sshArgs => (inner.runCtx ctx s "ssh" sshArgs, [.runCtx ctx s "ssh" sshArgs])

/-- `func (rsc *SSHCLI) Env(env ...string) { rsc.env = env }`: stores the
entries locally; the inner runner is not called. -/
def SSHCLI.Env (rsc : SSHCLI) (env : List String) : SSHCLI × List InnerCall :=
  ({ rsc with env := env }, [])

/-! ### Testing -/

/-- An invocation of `TestingT.Logf` by the `Testing` wrapper, recorded as
the data it formats (command/args for `Run` and `RunContext`, vars for
`Env`). -/
inductive LogEvent where
  | runLog (command : String) (args : List String)
  | runContextLog (command : String) (args : List String)
  | envLog (vars : List String)
deriving DecidableEq, Repr

/-- `Testing` wrapper state.  `TestingT` is the log-sink interface field:
`none` models a nil interface value (calling `Logf` on it panics), `some log`
a present sink that has received the events in `log`. -/
structure Testing where
  TestingT : Option (List LogEvent)
  LogEnv : Bool
deriving DecidableEq, Repr

/-- `func (r *Testing) Run(...)`: logs the command and arguments to
`TestingT` (panicking if it is nil), then delegates unchanged to the inner
runner's `Run` and returns its result. -/
def Testing.Run (r : Testing) (inner : InnerRunner) (s : Streams)
    (command : String) (args : List String) :
    Option (Testing × Except GoErr Unit × List InnerCall) :=
  match r.TestingT with
  | none => none
  | some log =>
      some ({ r with TestingT := some (log ++ [.runLog command args]) },
            inner.run s command args,
            [.run s command args])

/-- `func (r *Testing) RunContext(...)`: as `Run`, via the inner runner's
`RunContext`. -/
def Testing.RunContext (r : Testing) (inner : InnerRunner) (ctx : Ctx) (s : Streams)
    (command : String) (args : List String) :
    Option (Testing × Except GoErr Unit × List InnerCall) :=
  match r.TestingT with
  | none => none
  | some log =>
      some ({ r with TestingT := some (log ++ [.runContextLog command args]) },
            inner.runCtx ctx s command args,
            [.runCtx ctx s command args])

/-- `func (r *Testing) Env(vars ...string)`: logs the vars only when
`LogEnv` is set (panicking then if `TestingT` is nil), and forwards the call
to the inner runner's `Env`. -/
def Testing.Env (r : Testing) (vars : List String) :
    Option (Testing × List InnerCall) :=
  if r.LogEnv then
    match r.TestingT with
    | none => none
    | some log =>
        some ({ r with TestingT := some (log ++ [.envLog vars]) }, [.env vars])
  else
    some (r, [.env vars])

/-! ### Helper lemmas -/

theorem list_ite_length_append (s l : List String) :
    (if l.length > 0 then s ++ l else s) = s ++ l := by
  cases l <;> simp

/-- Canonical right-nested form of `SSHCLI.args` when the destination is
non-empty (shared helper). -/
theorem SSHCLI.args_eq (rsc : SSHCLI) (command : String) (args : List String)
    (h : rsc.Destination ≠ "") :
    rsc.args command args = .ok (
      (if rsc.Port ≠ 0 then ["-p", toString rsc.Port] else [])
      ++ (if rsc.IdentityFile ≠ "" then ["-i", rsc.IdentityFile] else [])
      ++ (if rsc.Login ≠ "" then ["-l", rsc.Login] else [])
      ++ rsc.Args
      ++ [rsc.Destination, "--"]
      ++ (if rsc.env.length > 0 then "env" :: rsc.env else [])
      ++ [command] ++ args) := by
  rcases rsc with ⟨d, p, i, l, A, e⟩
  simp only [ne_eq] at h ⊢
  by_cases hp : p = 0 <;> by_cases hi : i = "" <;> by_cases hl : l = "" <;>
    cases A <;> cases e <;>
      simp [SSHCLI.args, h, hp, hi, hl, list_ite_length_append]

/-! ### Claim theorems -/

/-- C1: for every stream set, command and argument list, `Run` and
`RunContext` on an `SSHCLI` with empty `Destination` return the
configuration error `ErrSSHCLINoDestination` and never call the inner
runner (the delegated-call list is empty). -/
theorem sshcli_empty_destination_rejected
    (rsc : SSHCLI) (inner : InnerRunner) (ctx : Ctx) (s : Streams)
    (command : String) (args : List String)
    (h : rsc.Destination = "") :
    rsc.Run inner s command args = (.error ErrSSHCLINoDestination, []) ∧
    rsc.RunContext inner ctx s command args = (.error ErrSSHCLINoDestination, []) := by
  simp [SSHCLI.Run, SSHCLI.RunContext, SSHCLI.args, h]

/-- Witness for C1 at a concrete empty-destination configuration. -/
theorem sshcli_empty_destination_rejected_witness :
    SSHCLI.Run ⟨"", 0, "", "", [], []⟩ okRunner st0 "zfs" ["list"]
        = (.error ErrSSHCLINoDestination, []) ∧
    SSHCLI.RunContext ⟨"", 0, "", "", [], []⟩ okRunner 0 st0 "zfs" ["list"]
        = (.error ErrSSHCLINoDestination, []) :=
  sshcli_empty_destination_rejected ⟨"", 0, "", "", [], []⟩ okRunner 0 st0 "zfs" ["list"] rfl

/-- C2: for every `Sudo` configuration and target command, the argument
vector handed to the inner runner is exactly
`["-n"] ++ (if the user is set, ["-u", user]) ++ extra args ++ ["--", command]
++ target args`, and the delegated program name is `"sudo"`, for both `Run`
and `RunContext`. -/
theorem sudo_argument_vector_form
    (r : Sudo) (inner : InnerRunner) (ctx : Ctx) (s : Streams)
    (command : String) (args : List String) :
    r.args command args
        = ["-n"] ++ (if r.User ≠ "" then ["-u", r.User] else [])
            ++ r.Args ++ ["--", command] ++ args ∧
    r.Run inner s command args
        = (inner.run s "sudo" (r.args command args),
           [.run s "sudo" (r.args command args)]) ∧
    r.RunContext inner ctx s command args
        = (inner.runCtx ctx s "sudo" (r.args command args),
           [.runCtx ctx s "sudo" (r.args command args)]) := by
  refine ⟨?_, rfl, rfl⟩
  simp only [Sudo.args]
  split <;> simp

/-- C3: for every `SSHCLI` with non-empty destination, the constructed
argument vector is the port flag pair (when the port is nonzero), then the
identity-file pair (when set), then the login pair (when set), then the
extra args verbatim, then the destination and `"--"`, then the environment
block, command and target args; each absent optional field removes exactly
its own flag pair. -/
theorem sshcli_argument_vector_order
    (rsc : SSHCLI) (command : String) (args : List String)
    (h : rsc.Destination ≠ "") :
    rsc.args command args = .ok (
      (if rsc.Port ≠ 0 then ["-p", toString rsc.Port] else [])
      ++ (if rsc.IdentityFile ≠ "" then ["-i", rsc.IdentityFile] else [])
      ++ (if rsc.Login ≠ "" then ["-l", rsc.Login] else [])
      ++ rsc.Args
      ++ [rsc.Destination, "--"]
      ++ (if rsc.env.length > 0 then "env" :: rsc.env else [])
      ++ [command] ++ args) :=
  SSHCLI.args_eq rsc command args h

/-- Witness for C3 at a fully-populated concrete configuration. -/
theorem sshcli_argument_vector_order_witness :
    SSHCLI.args ⟨"narnia.local", 322, "/home/darrin/.ssh/id_other", "barfoo",
        ["-C", "-o", "AddKeysToAgent=yes"], []⟩ "docker" ["ps", "-a"]
      = .ok ["-p", "322", "-i", "/home/darrin/.ssh/id_other", "-l", "barfoo",
             "-C", "-o", "AddKeysToAgent=yes", "narnia.local", "--",
             "docker", "ps", "-a"] := by
  rw [sshcli_argument_vector_order
    ⟨"narnia.local", 322, "/home/darrin/.ssh/id_other", "barfoo",
        ["-C", "-o", "AddKeysToAgent=yes"], []⟩ "docker" ["ps", "-a"] (by decide)]
  exact congrArg Except.ok (by decide)

/-- C4: for every `SSHCLI` with non-empty destination, when the stored
environment is non-empty the vector contains `"env"` immediately after the
`"--"` marker, followed by the stored entries in order and then the command
and its arguments; when the stored environment is empty the command follows
`"--"` directly, with no `"env"` token inserted. -/
theorem sshcli_env_wrapper_placement
    (rsc : SSHCLI) (command : String) (args : List String)
    (h : rsc.Destination ≠ "") :
    (rsc.env ≠ [] →
      rsc.args command args = .ok (
        (if rsc.Port ≠ 0 then ["-p", toString rsc.Port] else [])
        ++ (if rsc.IdentityFile ≠ "" then ["-i", rsc.IdentityFile] else [])
        ++ (if rsc.Login ≠ "" then ["-l", rsc.Login] else [])
        ++ rsc.Args
        ++ [rsc.Destination, "--", "env"]
        ++ rsc.env ++ [command] ++ args)) ∧
    (rsc.env = [] →
      rsc.args command args = .ok (
        (if rsc.Port ≠ 0 then ["-p", toString rsc.Port] else [])
        ++ (if rsc.IdentityFile ≠ "" then ["-i", rsc.IdentityFile] else [])
        ++ (if rsc.Login ≠ "" then ["-l", rsc.Login] else [])
        ++ rsc.Args
        ++ [rsc.Destination, "--", command] ++ args)) := by
  have hbase := SSHCLI.args_eq rsc command args h
  constructor
  · intro hne
    rcases hE : rsc.env with _ | ⟨e, es⟩
    · exact absurd hE hne
    · rw [hbase, hE]
      simp
  · intro he
    rw [hbase, he]
    simp

/-- Witness for C4 at concrete configurations with and without stored
environment entries. -/
theorem sshcli_env_wrapper_placement_witness :
    SSHCLI.args ⟨"narnia.local", 0, "", "", [], ["FOO=BAR", "PORT=8080"]⟩
        "myapp" ["run", "-a"]
      = .ok ["narnia.local", "--", "env", "FOO=BAR", "PORT=8080",
             "myapp", "run", "-a"] ∧
    SSHCLI.args ⟨"narnia.local", 0, "", "", [], []⟩ "docker" ["ps"]
      = .ok ["narnia.local", "--", "docker", "ps"] := by
  constructor
  · have h := (sshcli_env_wrapper_placement
      ⟨"narnia.local", 0, "", "", [], ["FOO=BAR", "PORT=8080"]⟩
      "myapp" ["run", "-a"] (by decide)).1 (by decide)
    simpa using h
  · have h := (sshcli_env_wrapper_placement
      ⟨"narnia.local", 0, "", "", [], []⟩ "docker" ["ps"] (by decide)).2 rfl
    simpa using h

/-- C5: `Env(E)` on a `Local` or an `SSHCLI` stores exactly `E`: the stored
environment afterwards is `E` itself — no reordering, no de-duplication —
and the whole previous value is replaced regardless of what it was. -/
theorem env_setter_stores_exactly (l : Local) (rsc : SSHCLI) (E : List String) :
    (l.Env E).env = E ∧
    ((rsc.Env E).1).env = E ∧
    l.Env E = { env := E } ∧
    (rsc.Env E).1 = { rsc with env := E } :=
  ⟨rfl, rfl, rfl, rfl⟩

/-- C6 counterexample: calling `Env` on a concrete `SSHCLI` makes no call at
all on the inner runner — the delegated-call list is empty, not the claimed
forwarded `Env` call — even though the entries are stored locally. -/
theorem sshcli_env_no_delegation_counterexample :
    (SSHCLI.Env ⟨"narnia.local", 0, "", "", [], []⟩ ["foo=bar"]).2
        = ([] : List InnerCall) ∧
    (SSHCLI.Env ⟨"narnia.local", 0, "", "", [], []⟩ ["foo=bar"]).2
        ≠ [InnerCall.env ["foo=bar"]] := by
  exact ⟨rfl, by decide⟩

/-- C6 (amended): `Sudo.Env` and `Testing.Env` (when the latter returns,
i.e. does not panic) forward the entry sequence unchanged to the inner
runner's `Env`; `SSHCLI.Env` instead stores a local copy only and performs
no call on its inner runner. -/
theorem env_delegation_amended
    (su : Sudo) (te : Testing) (rsc : SSHCLI) (E : List String)
    (res : Testing × List InnerCall) (hte : te.Env E = some res) :
    su.Env E = (su, [.env E]) ∧
    res.2 = [.env E] ∧
    rsc.Env E = ({ rsc with env := E }, []) := by
  refine ⟨rfl, ?_, rfl⟩
  unfold Testing.Env at hte
  by_cases hL : te.LogEnv = true
  · rw [if_pos hL] at hte
    cases hT : te.TestingT with
    | none => rw [hT] at hte; cases hte
    | some log => rw [hT] at hte; cases hte; rfl
  · rw [if_neg hL] at hte
    cases hte; rfl

/-- Witness for the amended C6 at concrete instances of all three
wrappers. -/
theorem env_delegation_amended_witness :
    Sudo.Env ⟨"web", []⟩ ["foo=bar"] = (⟨"web", []⟩, [.env ["foo=bar"]]) ∧
    ((⟨some [LogEvent.envLog ["foo=bar"]], true⟩, [InnerCall.env ["foo=bar"]]) :
        Testing × List InnerCall).2 = [.env ["foo=bar"]] ∧
    SSHCLI.Env ⟨"narnia.local", 0, "", "", [], []⟩ ["foo=bar"]
        = (⟨"narnia.local", 0, "", "", [], ["foo=bar"]⟩, []) :=
  env_delegation_amended ⟨"web", []⟩ ⟨some [], true⟩
    ⟨"narnia.local", 0, "", "", [], []⟩ ["foo=bar"]
    (⟨some [LogEvent.envLog ["foo=bar"]], true⟩, [InnerCall.env ["foo=bar"]]) rfl

/-- C7 counterexample: at base message `"runner"`, the message of
`ErrSSHCLINoDestination` is not the claimed
`"runner: sshcli: destination must be set"` — the actual message carries a
doubled separator, `"runner: sshcli: : destination must be set"`, because
`ErrSSHCLI`'s own message already ends in `": "` and wrapping appends a
further `": "`. -/
theorem sshcli_error_message_counterexample :
    GoErr.errorMsg "runner" ErrSSHCLINoDestination
        ≠ "runner" ++ ": sshcli: destination must be set" ∧
    GoErr.errorMsg "runner" ErrSSHCLINoDestination
        = "runner: sshcli: : destination must be set" := by
  exact ⟨by decide, rfl⟩

/-- C7 (amended): for every base-error message `b`, the message of the
empty-destination error is exactly
`b ++ ": sshcli: : destination must be set"`: the base message, the
`": sshcli: "` marker (which itself ends in the separator), and then the
separator and `"destination must be set"` appended by the second wrap. -/
theorem sshcli_error_message_amended (b : String) :
    GoErr.errorMsg b ErrSSHCLINoDestination
        = b ++ ": sshcli: : destination must be set" := by
  show (b ++ ": sshcli: ") ++ ": destination must be set" = _
  have hlit : (": sshcli: " : String) ++ ": destination must be set"
      = ": sshcli: : destination must be set" := rfl
  rw [String.append_assoc, hlit]

/-- C8: `Sudo.Env` leaves the `Sudo` configuration untouched — the argument
vector it constructs for the escalation command is unchanged by any `Env`
call, for both `Run` and `RunContext` — and the entry sequence is forwarded
unchanged to the inner runner's `Env`. -/
theorem sudo_env_orthogonal_to_args
    (r : Sudo) (inner : InnerRunner) (ctx : Ctx) (s : Streams)
    (E : List String) (command : String) (args : List String) :
    (r.Env E).1 = r ∧
    ((r.Env E).1).args command args = r.args command args ∧
    ((r.Env E).1).Run inner s command args = r.Run inner s command args ∧
    ((r.Env E).1).RunContext inner ctx s command args
        = r.RunContext inner ctx s command args ∧
    (r.Env E).2 = [.env E] :=
  ⟨rfl, rfl, rfl, rfl, rfl⟩

/-- C9 counterexample: with the log sink absent (`TestingT` a nil
interface), `Run` and `RunContext` on a concrete `Testing` instance panic
(modelled as `none`) instead of proceeding to delegate to the inner
runner. -/
theorem testing_nil_sink_counterexample :
    Testing.Run ⟨none, false⟩ okRunner st0 "echo" ["-n", "hello world"] = none ∧
    Testing.RunContext ⟨none, false⟩ okRunner 0 st0 "echo" ["-n", "hello world"]
        = none :=
  ⟨rfl, rfl⟩

/-- C9 (amended): when `TestingT` is present, `Run` and `RunContext` log the
invocation and delegate the unchanged command, arguments and streams to the
inner runner, returning its result; when `TestingT` is a nil interface they
panic — as the `Testing` struct documents — and the inner runner is not
called. -/
theorem testing_run_logging_amended
    (r : Testing) (inner : InnerRunner) (ctx : Ctx) (s : Streams)
    (command : String) (args : List String) :
    (∀ log, r.TestingT = some log →
      r.Run inner s command args
        = some ({ r with TestingT := some (log ++ [.runLog command args]) },
                inner.run s command args, [.run s command args]) ∧
      r.RunContext inner ctx s command args
        = some ({ r with TestingT := some (log ++ [.runContextLog command args]) },
                inner.runCtx ctx s command args, [.runCtx ctx s command args])) ∧
    (r.TestingT = none →
      r.Run inner s command args = none ∧
      r.RunContext inner ctx s command args = none) := by
  constructor
  · intro log hT
    unfold Testing.Run Testing.RunContext
    rw [hT]
    exact ⟨rfl, rfl⟩
  · intro hT
    unfold Testing.Run Testing.RunContext
    rw [hT]
    exact ⟨rfl, rfl⟩

/-- Witness for the amended C9: a present sink logs and delegates; an
absent sink panics. -/
theorem testing_run_logging_amended_witness :
    Testing.Run ⟨some [], false⟩ okRunner st0 "echo" ["hi"]
        = some (⟨some [LogEvent.runLog "echo" ["hi"]], false⟩, Except.ok (),
                [InnerCall.run st0 "echo" ["hi"]]) ∧
    Testing.Run ⟨none, false⟩ okRunner st0 "ps" ["-a"] = none := by
  constructor
  · exact ((testing_run_logging_amended ⟨some [], false⟩ okRunner 0 st0
      "echo" ["hi"]).1 [] rfl).1
  · exact ((testing_run_logging_amended ⟨none, false⟩ okRunner 0 st0
      "ps" ["-a"]).2 rfl).1

/-- C10: on an `SSHCLI` whose stored environment is empty (the state in
which `Env` was never called), calling `Env` with the empty sequence leaves
the instance identical, so the constructed argument vector is identical
element for element, and in both cases the command follows `"--"` directly
with no `"env"` token and no entries inserted. -/
theorem sshcli_env_empty_vs_unset
    (rsc : SSHCLI) (command : String) (args : List String)
    (h0 : rsc.env = []) (h : rsc.Destination ≠ "") :
    (rsc.Env []).1 = rsc ∧
    ((rsc.Env []).1).args command args = rsc.args command args ∧
    rsc.args command args = .ok (
      (if rsc.Port ≠ 0 then ["-p", toString rsc.Port] else [])
      ++ (if rsc.IdentityFile ≠ "" then ["-i", rsc.IdentityFile] else [])
      ++ (if rsc.Login ≠ "" then ["-l", rsc.Login] else [])
      ++ rsc.Args
      ++ [rsc.Destination, "--", command] ++ args) := by
  have heq : (rsc.Env []).1 = rsc := by
    rcases rsc with ⟨d, p, i, l, A, e⟩
    simp only at h0
    subst h0
    rfl
  refine ⟨heq, by rw [heq], ?_⟩
  have hbase := SSHCLI.args_eq rsc command args h
  rw [hbase, h0]
  simp

/-- Witness for C10 at a concrete configuration with no stored
environment. -/
theorem sshcli_env_empty_vs_unset_witness :
    (SSHCLI.Env ⟨"narnia.local", 0, "", "", [], []⟩ []).1
        = ⟨"narnia.local", 0, "", "", [], []⟩ ∧
    (((SSHCLI.Env ⟨"narnia.local", 0, "", "", [], []⟩ []).1).args
        "docker" ["ps"])
        = SSHCLI.args ⟨"narnia.local", 0, "", "", [], []⟩ "docker" ["ps"] ∧
    SSHCLI.args ⟨"narnia.local", 0, "", "", [], []⟩ "docker" ["ps"]
        = .ok (([] : List String) ++ ([] : List String) ++ ([] : List String)
            ++ ([] : List String) ++ ["narnia.local", "--", "docker"] ++ ["ps"]) :=
  sshcli_env_empty_vs_unset ⟨"narnia.local", 0, "", "", [], []⟩ "docker" ["ps"]
    rfl (by decide)

end GoRunner
